import Mathlib

/-!
Verification of the ollie-scraper dual-mode channel monitor
(src/monitor.rs, src/notifier.rs, src/models.rs).

The Rust source is shallowly embedded: JSON values are a small inductive,
serde decoding of the wire structures becomes explicit decode functions,
and each loop body becomes a pure step function over explicit state.
Sleeps and subprocess calls are recorded as emitted events rather than
performed.
-/

namespace OllieScraper

/-- A JSON value as produced by serde_json.  Numbers are modelled as
integers, which covers every field the program reads (`op`, `s`,
`heartbeat_interval`) — no fractional number reaches a decoded field. -/
inductive Json where
  | null : Json
  | bool (b : Bool) : Json
  | num (n : Int) : Json
  | str (s : String) : Json
  | arr (elems : List Json) : Json
  | obj (fields : List (String × Json)) : Json

/-- Field lookup in a JSON object, as serde does when decoding a struct. -/
def getField (key : String) : List (String × Json) → Option Json
  | [] => none
  | (k, v) :: rest => if k = key then some v else getField key rest

/-- serde decoding of an `Option<String>` struct field: missing or `null`
gives `None`, a string gives `Some`, any other shape is a decode error. -/
def optStringField (key : String) (fields : List (String × Json)) :
    Option (Option String) :=
  match getField key fields with
  | none => some none
  | some .null => some none
  | some (.str s) => some (some s)
  | some _ => none

/-- serde decoding of an `Option<u64>` struct field. -/
def optNatField (key : String) (fields : List (String × Json)) :
    Option (Option Nat) :=
  match getField key fields with
  | none => some none
  | some .null => some none
  | some (.num n) => if 0 ≤ n then some (some n.toNat) else none
  | some _ => none

/-- serde decoding of an `Option<serde_json::Value>` struct field:
missing or `null` gives `None`, anything else is kept verbatim. -/
def optJsonField (key : String) (fields : List (String × Json)) :
    Option (Option Json) :=
  match getField key fields with
  | none => some none
  | some .null => some none
  | some v => some (some v)

/-- `GatewayMessage` (src/models.rs 4–13): `op: u8`, optional `s`, `t`, `d`. -/
structure GatewayMessage where
  op : Nat
  s : Option Nat
  t : Option String
  d : Option Json

/-- `Channel` (src/models.rs 37–41): `id: String`, `name: Option<String>`. -/
structure Channel where
  id : String
  name : Option String
deriving DecidableEq

/-- serde decoding of `GatewayMessage` from a JSON value
(`serde_json::from_str::<GatewayMessage>`): `op` is a required `u8`,
the other fields are optional; unknown fields are ignored. -/
def gatewayMessageFromJson (j : Json) : Option GatewayMessage :=
  match j with
  | .obj fields =>
    match getField "op" fields with
    | some (.num n) =>
      if 0 ≤ n ∧ n ≤ 255 then
        match optNatField "s" fields, optStringField "t" fields,
              optJsonField "d" fields with
        | some sv, some tv, some dv => some ⟨n.toNat, sv, tv, dv⟩
        | _, _, _ => none
      else none
    | _ => none
  | _ => none

/-- serde decoding of `HelloPayload` (src/models.rs 16–19):
a required `heartbeat_interval: u64`; returns the interval in ms. -/
def helloPayloadFromJson (j : Json) : Option Nat :=
  match j with
  | .obj fields =>
    match getField "heartbeat_interval" fields with
    | some (.num n) => if 0 ≤ n then some n.toNat else none
    | _ => none
  | _ => none

/-- serde decoding of `Channel` (`serde_json::from_value::<Channel>`):
`id` is a required string, `name` an optional string. -/
def channelFromJson (j : Json) : Option Channel :=
  match j with
  | .obj fields =>
    match getField "id" fields, optStringField "name" fields with
    | some (.str i), some nm => some ⟨i, nm⟩
    | _, _ => none
  | _ => none

/-- `check_and_notify_change` (src/monitor.rs 23–40) as a pure function on
the shared state value: returns the state after the call and the alarm it
started (`some name` when `notifier.start_alarm(name)` runs, else `none`).
The Rust body compares, writes the new value when different, and alarms
only when the differing new value is `Some`. -/
def checkAndNotifyChange (newName last : Option String) :
    Option String × Option String :=
  if last ≠ newName then
    (newName, match newName with
              | some name => some name
              | none => none)
  else
    (last, none)

/-- The cause carried by a failed fetch, after `reqwest::Error`:
a send/connect failure, an `error_for_status` failure, or a body-decode
failure. -/
inductive FetchError where
  | transport : FetchError
  | status (code : Nat) : FetchError
  | decode : FetchError
deriving DecidableEq

/-- The HTTP outcome a call to `fetch_channel_name` observes: either the
request itself failed, or a response arrived with a status code and a body
(`some j` when the body is valid JSON `j`, `none` when malformed). -/
inductive HttpOutcome where
  | netErr : HttpOutcome
  | response (status : Nat) (body : Option Json) : HttpOutcome

/-- `fetch_channel_name` (src/monitor.rs 47–64): `send().await?` propagates
a transport error, `error_for_status()?` errors exactly on client/server
error codes 400–599 (reqwest), and `response.json::<Channel>()` errors on a
malformed or non-conforming body; otherwise `Ok(channel.name)`. -/
def fetchChannelName (resp : HttpOutcome) : Except FetchError (Option String) :=
  match resp with
  | .netErr => .error .transport
  | .response st body =>
    if 400 ≤ st ∧ st ≤ 599 then .error (.status st)
    else
      match body with
      | none => .error .decode
      | some j =>
        match channelFromJson j with
        | some ch => .ok ch.name
        | none => .error .decode

/-- The poll interval `run_monitor` passes to `poll_loop`
(src/monitor.rs 324: `1.5` seconds), in milliseconds. -/
def runMonitorPollIntervalMs : Nat := 1500

/-- One iteration body of `poll_loop` (src/monitor.rs 80–91) after its
sleep: the state after the iteration, the alarm started, and whether the
error branch logged.  On `Err` the loop only logs and continues. -/
def pollStep (r : HttpOutcome) (s : Option String) :
    Option String × Option String × Bool :=
  match fetchChannelName r with
  | .ok currentName =>
    let c := checkAndNotifyChange currentName s
    (c.1, c.2, false)
  | .error _ => (s, none, true)

/-- `poll_loop` (src/monitor.rs 71–92) over a finite trace of fetch
outcomes: each iteration first sleeps the fixed interval, then fetches and
reconciles.  Returns the final state, the alarms started, and the list of
sleeps performed (one per iteration, in ms). -/
def pollLoopRun (intervalMs : Nat) : List HttpOutcome → Option String →
    Option String × List String × List Nat
  | [], s => (s, [], [])
  | r :: rest, s =>
    let st := pollStep r s
    let next := pollLoopRun intervalMs rest st.1
    (next.1, st.2.1.toList ++ next.2.1, intervalMs :: next.2.2)

/-- Dispatch on a decoded inbound `GatewayMessage` in the event loop of
`websocket_loop` (src/monitor.rs 230–254): only `op == 0` with
`t == "CHANNEL_UPDATE"`, a decodable `d`, and a matching channel id
reaches `check_and_notify_change`; every other message (including the
`op == 11` heartbeat ack) is a no-op. -/
def processMsg (watchedId : String) (m : GatewayMessage) (s : Option String) :
    Option String × Option String :=
  if m.op = 0 then
    match m.t with
    | some tag =>
      if tag = "CHANNEL_UPDATE" then
        match m.d with
        | some d =>
          match channelFromJson d with
          | some ch =>
            if ch.id = watchedId then checkAndNotifyChange ch.name s
            else (s, none)
          | none => (s, none)
        | none => (s, none)
      else (s, none)
    | none => (s, none)
  else (s, none)

/-- Handling of one inbound text frame (src/monitor.rs 229–255):
`j` is the JSON parse of the frame text (`none` when invalid JSON, which
the `if let Ok(..)` silently drops). -/
def processTextFrame (watchedId : String) (j : Option Json)
    (s : Option String) : Option String × Option String :=
  match j with
  | none => (s, none)
  | some jv =>
    match gatewayMessageFromJson jv with
    | none => (s, none)
    | some m => processMsg watchedId m s

/-- The first read on a fresh gateway connection
(src/monitor.rs 118–163): stream end (`None`), a transport error
(`Some(Err)`), a non-text frame, or a text frame whose JSON parse is `j`
(`none` when malformed). -/
inductive FirstFrame where
  | closed : FirstFrame
  | wsError : FirstFrame
  | nonText : FirstFrame
  | text (j : Option Json) : FirstFrame

/-- The Hello handling of `websocket_loop` (src/monitor.rs 118–163):
`some interval` exactly when the first frame is text whose JSON decodes to
a `GatewayMessage` with `op == 10` and a `d` decoding as `HelloPayload`;
every other outcome takes a `continue`. -/
def helloStep (first : FirstFrame) : Option Nat :=
  match first with
  | .text (some j) =>
    match gatewayMessageFromJson j with
    | some m =>
      if m.op = 10 then
        match m.d with
        | some d => helloPayloadFromJson d
        | none => none
      else none
    | none => none
  | _ => none

/-- The `IdentifyProperties` literal built at src/monitor.rs 172–176,
serialized (src/models.rs 29–34). -/
def identifyPropertiesJson : Json :=
  .obj [("os", .str "linux"), ("browser", .str "Chrome"),
        ("device", .str "Chrome")]

/-- `serde_json::to_value(IdentifyPayload { token, properties })`
(src/models.rs 22–26, built at src/monitor.rs 170–178). -/
def identifyPayloadJson (token : String) : Json :=
  .obj [("token", .str token), ("properties", identifyPropertiesJson)]

/-- The Identify frame sent at src/monitor.rs 166–184:
`op: 2` carrying the serialized `IdentifyPayload`. -/
def identifyMessage (token : String) : GatewayMessage :=
  { op := 2, s := none, t := none, d := some (identifyPayloadJson token) }

/-- One occurrence inside the `tokio::select!` event loop
(src/monitor.rs 209–272): a heartbeat timer firing (with the success of
the subsequent send), or a read completing. -/
inductive SessionEvent where
  | heartbeat (sendOk : Bool) : SessionEvent
  | textMsg (j : Option Json) : SessionEvent
  | closeMsg : SessionEvent
  | wsErr : SessionEvent
  | otherMsg : SessionEvent

/-- The Active-session event loop (src/monitor.rs 209–272) over a finite
event trace; trace exhaustion models `read.next()` returning `None`
(stream end), which breaks the loop.  A failed heartbeat send, a close
frame, or a websocket error also break; text frames are reconciled and
everything else is ignored. -/
def runSession (watchedId : String) : List SessionEvent → Option String →
    List String → Option String × List String
  | [], s, alerts => (s, alerts)
  | ev :: rest, s, alerts =>
    match ev with
    | .heartbeat sendOk =>
      if sendOk then runSession watchedId rest s alerts else (s, alerts)
    | .closeMsg => (s, alerts)
    | .wsErr => (s, alerts)
    | .otherMsg => runSession watchedId rest s alerts
    | .textMsg j =>
      let r := processTextFrame watchedId j s
      runSession watchedId rest r.1 (alerts ++ r.2.toList)

/-- One connection attempt of `websocket_loop` (src/monitor.rs 108–285):
either `connect_async` fails, or it yields a first frame, the success of
the Identify send, and the Active-session event trace. -/
inductive ConnAttempt where
  | connectErr : ConnAttempt
  | connected (first : FirstFrame) (identifyOk : Bool)
      (events : List SessionEvent) : ConnAttempt

/-- The observable outcome of one iteration of the outer `loop` in
`websocket_loop`. -/
structure WsIterResult where
  finalState : Option String
  alerts : List String
  identifySent : Option GatewayMessage
  heartbeatIntervalMs : Option Nat
  reconnectSleepMs : Option Nat

/-- One iteration of the outer `loop` of `websocket_loop`
(src/monitor.rs 108–285).  The Hello-handling `continue`s
(lines 133, 138, 143, 147, 152, 157, 161) and the failed-Identify
`continue` (line 186) restart the outer loop directly, skipping the
5-second sleep at line 284; only a `connect_async` error and the end of an
Active session fall through to that sleep. -/
def wsIteration (token watchedId : String) (att : ConnAttempt)
    (s : Option String) : WsIterResult :=
  match att with
  | .connectErr =>
    { finalState := s, alerts := [], identifySent := none,
      heartbeatIntervalMs := none, reconnectSleepMs := some 5000 }
  | .connected first identifyOk events =>
    match helloStep first with
    | none =>
      { finalState := s, alerts := [], identifySent := none,
        heartbeatIntervalMs := none, reconnectSleepMs := none }
    | some interval =>
      if identifyOk then
        let r := runSession watchedId events s []
        { finalState := r.1, alerts := r.2,
          identifySent := some (identifyMessage token),
          heartbeatIntervalMs := some interval,
          reconnectSleepMs := some 5000 }
      else
        { finalState := s, alerts := [],
          identifySent := some (identifyMessage token),
          heartbeatIntervalMs := some interval,
          reconnectSleepMs := none }

/-- The bootstrap phase of `run_monitor` (src/monitor.rs 293–327): the
initial fetch result sets the shared state on `Ok` and only logs on
`Err`; both loops are then joined unconditionally. -/
structure MonitorInit where
  lastName : Option String
  loggedError : Bool
  startsPoller : Bool
  startsGateway : Bool
deriving DecidableEq

/-- The bootstrap of `run_monitor` (src/monitor.rs 297–308) followed by the
unconditional `tokio::join!` of both loops (src/monitor.rs 323–326). -/
def runMonitorInit (initialFetch : HttpOutcome) : MonitorInit :=
  match fetchChannelName initialFetch with
  | .ok name =>
    { lastName := name, loggedError := false,
      startsPoller := true, startsGateway := true }
  | .error _ =>
    { lastName := none, loggedError := true,
      startsPoller := true, startsGateway := true }

/-- Program counter of one task running `check_and_notify_change`
(src/monitor.rs 29–38).  The read-lock acquisition, compare, and guard
drop (lines 29–31) are one atomic step; the write under the write lock
(lines 32–34) is a second; `start_alarm` (lines 35–38) a third.  The lock
is NOT held across steps — the source drops the read guard before taking
the write lock. -/
inductive CheckPc where
  | compare : CheckPc
  | write : CheckPc
  | alert : CheckPc
  | done : CheckPc
deriving DecidableEq

/-- One atomic step of a task running `check_and_notify_change` with
observed name `v`: returns the new pc, the new shared value, and the
number of alarms started (0 or 1). -/
def taskStep (v : Option String) : CheckPc → Option String →
    CheckPc × Option String × Nat
  | .compare, s => (if s ≠ v then .write else .done, s, 0)
  | .write, _ => (.alert, v, 0)
  | .alert, s => (.done, s, match v with | some _ => 1 | none => 0)
  | .done, s => (.done, s, 0)

/-- Global state of two tasks (Poller and GatewayClient) concurrently
inside `check_and_notify_change` on the same `RwLock` value. -/
structure RaceState where
  name : Option String
  pc1 : CheckPc
  pc2 : CheckPc
  alerts1 : Nat
  alerts2 : Nat
deriving DecidableEq

/-- Scheduler step: `true` runs one atomic step of task 1, `false` of
task 2.  Both tasks observe the same new name `v`. -/
def raceStep (v : Option String) (st : RaceState) (who : Bool) : RaceState :=
  if who then
    let r := taskStep v st.pc1 st.name
    { st with pc1 := r.1, name := r.2.1, alerts1 := st.alerts1 + r.2.2 }
  else
    let r := taskStep v st.pc2 st.name
    { st with pc2 := r.1, name := r.2.1, alerts2 := st.alerts2 + r.2.2 }

/-- Run a schedule of interleaved steps. -/
def raceRun (v : Option String) (sched : List Bool) (st : RaceState) :
    RaceState :=
  sched.foldl (raceStep v) st

/-- Both tasks at the start of `check_and_notify_change`, shared state
empty, no alarms yet. -/
def raceInit : RaceState :=
  { name := none, pc1 := .compare, pc2 := .compare,
    alerts1 := 0, alerts2 := 0 }

/-- `Notifier::stop` (src/notifier.rs 99–101): stores `false` into the
running flag. -/
def stopAlarm (_running : Bool) : Bool := false

/-- Control points of the loop in `Notifier::start_alarm`
(src/notifier.rs 83–95): the outer `while` check, the blocking
`play_sound` call, the inner for-loop flag check at index `i`, the 100 ms
sleep at index `i`, and loop exit. -/
inductive AlarmPhase where
  | whileCheck : AlarmPhase
  | playing : AlarmPhase
  | innerCheck (i : Nat) : AlarmPhase
  | sleeping (i : Nat) : AlarmPhase
  | stopped : AlarmPhase
deriving DecidableEq

/-- Externally observable actions of the alarm loop. -/
inductive AlarmAction where
  | play : AlarmAction
  | sleep100 : AlarmAction
deriving DecidableEq

/-- One step of the `start_alarm` loop body (src/notifier.rs 83–95) with
the current value of the shared running flag: the `while` condition loads
the flag; `play_sound` blocks until playback ends (emitting `play`); the
inner `for _ in 0..30` checks the flag before each 100 ms sleep and
breaks to the `while` check when it is false or after 30 rounds. -/
def alarmStep (flag : Bool) : AlarmPhase → AlarmPhase × Option AlarmAction
  | .whileCheck => if flag then (.playing, none) else (.stopped, none)
  | .playing => (.innerCheck 0, some .play)
  | .innerCheck i =>
    if 30 ≤ i then (.whileCheck, none)
    else if flag then (.sleeping i, none) else (.whileCheck, none)
  | .sleeping i => (.innerCheck (i + 1), some .sleep100)
  | .stopped => (.stopped, none)

/-- Iterate `alarmStep` for `n` steps under a constant flag value,
collecting the emitted actions. -/
def alarmRun (flag : Bool) : Nat → AlarmPhase → AlarmPhase × List AlarmAction
  | 0, p => (p, [])
  | n + 1, p =>
    let r := alarmStep flag p
    let rest := alarmRun flag n r.1
    (rest.1, r.2.toList ++ rest.2)

/-- The dispatch frame of the spec scenario:
`{"op":0,"t":"CHANNEL_UPDATE","d":{"id":"123","name":"general-chat"}}`. -/
def c4Json : Json :=
  .obj [("op", .num 0), ("t", .str "CHANNEL_UPDATE"),
        ("d", .obj [("id", .str "123"), ("name", .str "general-chat")])]

/-- The deviant greeting of the spec scenario: `{"op":5}`. -/
def op5Json : Json := .obj [("op", .num 5)]

/-- A greeting with the correct op but no payload: `{"op":10}`. -/
def op10NoD : Json := .obj [("op", .num 10)]

/-- The greeting of the spec scenario:
`{"op":10,"d":{"heartbeat_interval":41250}}`. -/
def hello41250Json : Json :=
  .obj [("op", .num 10), ("d", .obj [("heartbeat_interval", .num 41250)])]

/-- The spec-scenario greeting arriving as the first text frame. -/
def helloFrame41250 : FirstFrame := .text (some hello41250Json)

/-- A parseable resource-record body `{"id":"123","name":"general-chat"}`. -/
def okBody300 : Json :=
  .obj [("id", .str "123"), ("name", .str "general-chat")]

theorem checkAndNotifyChange_fst (v s : Option String) :
    (checkAndNotifyChange v s).1 = v := by
  unfold checkAndNotifyChange
  by_cases h : s = v <;> simp [h]

theorem checkAndNotifyChange_snd (v s : Option String) :
    (checkAndNotifyChange v s).2 = if v.isSome ∧ v ≠ s then v else none := by
  unfold checkAndNotifyChange
  by_cases h : s = v
  · simp [h]
  · cases v with
    | none => simp [h]
    | some n => simp [h, Ne.symm h]

/-- C3: for every observed name and prior state, `check_and_notify_change`
leaves the state equal to the observed name (an update whenever they
differ, including an update to `none`), and starts an alarm carrying the
observed name exactly when that name is present and differs from the
prior value — in particular never on a transition into `none`. -/
theorem C3_change_check (v s : Option String) :
    (checkAndNotifyChange v s).1 = v
    ∧ (checkAndNotifyChange v s).2 = (if v.isSome ∧ v ≠ s then v else none) :=
  ⟨checkAndNotifyChange_fst v s, checkAndNotifyChange_snd v s⟩

/-- C6: applying the change check twice in sequence with the same observed
name leaves the state where the first application put it, the second
application starts no alarm, and the two applications together start at
most one alarm. -/
theorem C6_idempotent (v s : Option String) :
    (checkAndNotifyChange v (checkAndNotifyChange v s).1).1 =
      (checkAndNotifyChange v s).1
    ∧ (checkAndNotifyChange v (checkAndNotifyChange v s).1).2 = none
    ∧ (checkAndNotifyChange v s).2.toList.length
        + (checkAndNotifyChange v (checkAndNotifyChange v s).1).2.toList.length
        ≤ 1 := by
  have h1 : (checkAndNotifyChange v s).1 = v := checkAndNotifyChange_fst v s
  have h2 : (checkAndNotifyChange v (checkAndNotifyChange v s).1).2 = none := by
    rw [h1, checkAndNotifyChange_snd]
    simp
  refine ⟨?_, h2, ?_⟩
  · rw [checkAndNotifyChange_fst, h1]
  · rw [h2]
    cases h : (checkAndNotifyChange v s).2 <;> simp [h]

/-- C1: the compare-and-update in `check_and_notify_change` is not atomic
(the read guard is dropped before the write lock is taken), so two tasks
racing on the same new name against the same shared state can both pass
the compare, both write, and both start an alarm.  The first run below is
the interleaving: task 1 compares, task 2 compares, task 1 writes and
alarms, task 2 writes and alarms — two alarms fire for one change.  The
second run shows the sequential interleaving where only one alarm fires,
so the outcome depends on the schedule. -/
theorem C1_race_two_alerts :
    (raceRun (some "x") [true, false, true, true, false, false] raceInit).alerts1 = 1
    ∧ (raceRun (some "x") [true, false, true, true, false, false] raceInit).alerts2 = 1
    ∧ (raceRun (some "x") [true, false, true, true, false, false] raceInit).pc1 = .done
    ∧ (raceRun (some "x") [true, false, true, true, false, false] raceInit).pc2 = .done
    ∧ (raceRun (some "x") [true, true, true, false] raceInit).alerts1 = 1
    ∧ (raceRun (some "x") [true, true, true, false] raceInit).alerts2 = 0
    ∧ (raceRun (some "x") [true, true, true, false] raceInit).pc2 = .done := by
  refine ⟨rfl, rfl, rfl, rfl, rfl, rfl, rfl⟩

/-- C2 counterexample: a handshake deviation — first frame `{"op":5}` —
takes a `continue` in `websocket_loop` that skips the 5-second sleep at
the bottom of the outer loop, so the next connection attempt starts with
no wait, contradicting the claim that every transition back to
Disconnected is followed by a 5-second wait. -/
theorem C2_no_wait_after_op5 :
    (wsIteration "token" "123"
        (.connected (.text (some op5Json)) true []) none).reconnectSleepMs
      = none := rfl

/-- C2 amended: the 5-second wait precedes the next connection attempt
exactly after a connect error or after an Active session ends (greeting
accepted and Identify sent successfully); a handshake deviation or a
failed Identify send restarts the loop immediately with no wait. -/
theorem C2_reconnect_wait_amended (token watchedId : String)
    (att : ConnAttempt) (s : Option String) :
    (wsIteration token watchedId att s).reconnectSleepMs =
      match att with
      | .connectErr => some 5000
      | .connected first identifyOk _ =>
        if (helloStep first).isSome ∧ identifyOk then some 5000 else none := by
  cases att with
  | connectErr => rfl
  | connected first identifyOk events =>
    cases h : helloStep first with
    | none => simp [wsIteration, h]
    | some n => cases identifyOk <;> simp [wsIteration, h]

/-- C4: with prior state `none` and watched id "123", the dispatch frame
`{"op":0,"t":"CHANNEL_UPDATE","d":{"id":"123","name":"general-chat"}}`
moves the state to `some "general-chat"` and starts exactly one alarm
with that name; and any decoded message whose op is not 0, whose event
type is not "CHANNEL_UPDATE", or whose record id differs from the watched
id leaves the state unchanged and starts no alarm. -/
theorem C4_dispatch :
    processTextFrame "123" (some c4Json) none =
      (some "general-chat", some "general-chat")
    ∧ (∀ (watchedId : String) (m : GatewayMessage) (s : Option String),
        m.op ≠ 0 → processMsg watchedId m s = (s, none))
    ∧ (∀ (watchedId : String) (m : GatewayMessage) (s : Option String),
        m.t ≠ some "CHANNEL_UPDATE" → processMsg watchedId m s = (s, none))
    ∧ (∀ (watchedId : String) (m : GatewayMessage) (s : Option String)
        (j : Json) (ch : Channel),
        m.d = some j → channelFromJson j = some ch → ch.id ≠ watchedId →
        processMsg watchedId m s = (s, none)) := by
  refine ⟨rfl, ?_, ?_, ?_⟩
  · intro watchedId m s h
    simp [processMsg, h]
  · intro watchedId m s h
    by_cases hop : m.op = 0
    · cases ht : m.t with
      | none => simp [processMsg, hop, ht]
      | some tag =>
        have htag : tag ≠ "CHANNEL_UPDATE" := by
          intro he
          exact h (by rw [ht, he])
        simp [processMsg, hop, ht, htag]
    · simp [processMsg, hop]
  · intro watchedId m s j ch hd hch hid
    by_cases hop : m.op = 0
    · cases ht : m.t with
      | none => simp [processMsg, hop, ht]
      | some tag =>
        by_cases htag : tag = "CHANNEL_UPDATE"
        · simp [processMsg, hop, ht, htag, hd, hch, hid]
        · simp [processMsg, hop, ht, htag]
    · simp [processMsg, hop]

/-- C4 witness: a frame with op 1 leaves an empty state unchanged and
starts no alarm. -/
theorem C4_dispatch_witness :
    processMsg "123" ⟨1, none, none, none⟩ none = (none, none) :=
  C4_dispatch.2.1 "123" ⟨1, none, none, none⟩ none (by decide)

/-- C5: if the first frame after connecting is the text greeting
`{"op":10,"d":{"heartbeat_interval":41250}}`, the client extracts the
41250 ms heartbeat interval and hands the Identify frame — op 2, payload
carrying the credential and the fixed client properties — to the send;
for any first-frame deviation (`helloStep` yields nothing: wrong op,
missing payload, malformed frame, non-text frame, closed stream,
transport error — the listed concrete cases evaluate to none below) no
Identify frame is sent, the shared state is untouched, no alarm starts,
and the iteration ends back in Disconnected. -/
theorem C5_handshake :
    (∀ (token watchedId : String) (identifyOk : Bool)
        (events : List SessionEvent) (s : Option String),
        (wsIteration token watchedId
            (.connected helloFrame41250 identifyOk events) s).heartbeatIntervalMs
          = some 41250
        ∧ (wsIteration token watchedId
            (.connected helloFrame41250 identifyOk events) s).identifySent
          = some (identifyMessage token)
        ∧ (identifyMessage token).op = 2
        ∧ (identifyMessage token).d = some (identifyPayloadJson token)
        ∧ identifyPayloadJson token
          = .obj [("token", .str token), ("properties", identifyPropertiesJson)])
    ∧ (∀ (first : FirstFrame), helloStep first = none →
        ∀ (token watchedId : String) (identifyOk : Bool)
          (events : List SessionEvent) (s : Option String),
          (wsIteration token watchedId
              (.connected first identifyOk events) s).identifySent = none
          ∧ (wsIteration token watchedId
              (.connected first identifyOk events) s).finalState = s
          ∧ (wsIteration token watchedId
              (.connected first identifyOk events) s).alerts = []
          ∧ (wsIteration token watchedId
              (.connected first identifyOk events) s).heartbeatIntervalMs = none)
    ∧ helloStep .closed = none
    ∧ helloStep .wsError = none
    ∧ helloStep .nonText = none
    ∧ helloStep (.text none) = none
    ∧ helloStep (.text (some op5Json)) = none
    ∧ helloStep (.text (some op10NoD)) = none := by
  refine ⟨?_, ?_, rfl, rfl, rfl, rfl, rfl, rfl⟩
  · intro token watchedId identifyOk events s
    have h : helloStep helloFrame41250 = some 41250 := rfl
    cases identifyOk <;> simp [wsIteration, h] <;>
      exact ⟨rfl, rfl, rfl⟩
  · intro first h token watchedId identifyOk events s
    simp [wsIteration, h]

/-- C5 witness: a stream that closes before any frame sends no Identify
and leaves the state untouched. -/
theorem C5_handshake_witness :
    (wsIteration "tok" "123" (.connected .closed true []) none).identifySent
      = none
    ∧ (wsIteration "tok" "123" (.connected .closed true []) none).finalState
      = none :=
  ⟨(C5_handshake.2.1 .closed rfl "tok" "123" true [] none).1,
   (C5_handshake.2.1 .closed rfl "tok" "123" true [] none).2.1⟩

/-- C7 counterexample: `error_for_status` in `fetch_channel_name` rejects
only the client/server error codes 400–599, so a response with status 300
and a parseable resource-record body returns `Ok` — although 300 is not a
2xx status, contradicting the claim that an error is returned exactly
when the status is non-2xx. -/
theorem C7_ok_on_status_300 :
    fetchChannelName (.response 300 (some okBody300)) = .ok (some "general-chat")
    ∧ ¬(200 ≤ 300 ∧ 300 ≤ 299) := ⟨rfl, by decide⟩

/-- C7 amended: `fetch_channel_name` returns `Ok` with the name of the
record (possibly absent) exactly when the response status is outside
400–599 (the range `error_for_status` rejects) and the body parses as a
resource record; it errors exactly on a 400–599 status, a
network/transport failure, or a malformed body. -/
theorem C7_fetch_amended :
    (∀ (st : Nat) (j : Json) (ch : Channel), ¬(400 ≤ st ∧ st ≤ 599) →
        channelFromJson j = some ch →
        fetchChannelName (.response st (some j)) = .ok ch.name)
    ∧ (∀ (st : Nat) (body : Option Json), 400 ≤ st → st ≤ 599 →
        fetchChannelName (.response st body) = .error (.status st))
    ∧ fetchChannelName .netErr = .error .transport
    ∧ (∀ (st : Nat), ¬(400 ≤ st ∧ st ≤ 599) →
        fetchChannelName (.response st none) = .error .decode)
    ∧ (∀ (st : Nat) (j : Json), ¬(400 ≤ st ∧ st ≤ 599) →
        channelFromJson j = none →
        fetchChannelName (.response st (some j)) = .error .decode) := by
  refine ⟨?_, ?_, rfl, ?_, ?_⟩
  · intro st j ch hst hj
    simp [fetchChannelName, hst, hj]
  · intro st body h1 h2
    simp [fetchChannelName, h1, h2]
  · intro st hst
    simp [fetchChannelName, hst]
  · intro st j hst hj
    simp [fetchChannelName, hst, hj]

/-- C7 witness: a 200 response with a parseable record returns its name. -/
theorem C7_fetch_amended_witness :
    fetchChannelName (.response 200 (some okBody300)) = .ok (some "general-chat") :=
  C7_fetch_amended.1 200 okBody300 ⟨"123", some "general-chat"⟩ (by decide) rfl

/-- C8: a poll iteration whose fetch errors (network failure, error
status, or malformed body) logs, leaves the shared state unchanged, and
starts no alarm; and over any finite trace the loop performs exactly one
sleep of the same fixed interval per iteration — it never exits early and
never changes the interval, which `run_monitor` fixes at 1.5 seconds. -/
theorem C8_poll_error_policy :
    (∀ (r : HttpOutcome) (s : Option String) (e : FetchError),
        fetchChannelName r = .error e → pollStep r s = (s, none, true))
    ∧ (∀ (rs : List HttpOutcome) (s : Option String),
        (pollLoopRun runMonitorPollIntervalMs rs s).2.2 =
          List.replicate rs.length runMonitorPollIntervalMs)
    ∧ runMonitorPollIntervalMs = 1500 := by
  refine ⟨?_, ?_, rfl⟩
  · intro r s e h
    simp [pollStep, h]
  · intro rs
    induction rs with
    | nil => intro s; rfl
    | cons r rest ih =>
      intro s
      simp [pollLoopRun, List.replicate, ih]

/-- C8 witness: a network failure leaves an empty state unchanged, starts
no alarm, and logs. -/
theorem C8_poll_error_policy_witness :
    pollStep .netErr none = (none, none, true) :=
  C8_poll_error_policy.1 .netErr none .transport rfl

/-- C9: `stop` stores false into the running flag; once the flag is
false, the alarm loop reaches its exit within three control steps from
any point, emitting no action at all except the single in-flight one —
the one 100 ms sleep in progress, or the playback invocation in progress,
which completes rather than being interrupted — so no further playback
cycle starts and the loop never waits out the rest of the 3-second replay
cycle (at most one of its thirty 100 ms sleeps runs). -/
theorem C9_alarm_stop :
    (∀ (running : Bool), stopAlarm running = false)
    ∧ (∀ (p : AlarmPhase),
        (alarmRun false 3 p).1 = .stopped
        ∧ (alarmRun false 3 p).2 =
            (match p with
             | .playing => [.play]
             | .sleeping _ => [.sleep100]
             | _ => [])) := by
  refine ⟨fun _ => rfl, ?_⟩
  intro p
  cases p with
  | whileCheck => exact ⟨rfl, rfl⟩
  | playing => exact ⟨rfl, rfl⟩
  | stopped => exact ⟨rfl, rfl⟩
  | innerCheck i =>
    by_cases h : 30 ≤ i <;> simp [alarmRun, alarmStep, h]
  | sleeping i =>
    by_cases h : 30 ≤ i + 1 <;> simp [alarmRun, alarmStep, h]

/-- C10: when the bootstrap fetch of `run_monitor` fails, the error is
logged, the shared state stays empty, and both the poll loop and the
websocket loop still start; the first later check that observes any
present name then sees a difference against `none`, updates the state,
and starts an alarm carrying that name — even if the actual channel name
never changed. -/
theorem C10_bootstrap_failure (r : HttpOutcome) (e : FetchError)
    (h : fetchChannelName r = .error e) :
    (runMonitorInit r).lastName = none
    ∧ (runMonitorInit r).loggedError = true
    ∧ (runMonitorInit r).startsPoller = true
    ∧ (runMonitorInit r).startsGateway = true
    ∧ ∀ (name : String),
        checkAndNotifyChange (some name) (runMonitorInit r).lastName =
          (some name, some name) := by
  have hr : runMonitorInit r =
      { lastName := none, loggedError := true,
        startsPoller := true, startsGateway := true } := by
    simp [runMonitorInit, h]
  rw [hr]
  refine ⟨rfl, rfl, rfl, rfl, ?_⟩
  intro name
  simp [checkAndNotifyChange]

/-- C10 witness: a failed bootstrap leaves the state empty and the first
observation of a present name starts an alarm with it. -/
theorem C10_bootstrap_failure_witness :
    (runMonitorInit .netErr).lastName = none
    ∧ checkAndNotifyChange (some "general") (runMonitorInit .netErr).lastName =
        (some "general", some "general") :=
  ⟨(C10_bootstrap_failure .netErr .transport rfl).1,
   (C10_bootstrap_failure .netErr .transport rfl).2.2.2.2 "general"⟩

end OllieScraper
